import Mathlib

/-!
Verification of the dp-dataset-api repository: a shallow embedding of the
dataset/edition/version/instance lifecycle logic, the observation query
validation, and the mongo query builders, with theorems settling the
spec claims against the embedded code.

Conventions: Go functions returning (value, error) become functions into
Except; pointer-typed optional struct fields become Option; the mongo
collaborator is modelled by explicit query-result parameters whose
semantics mirror the driver calls made by the code.
-/

deriving instance DecidableEq for Except

namespace DpDatasetApi

/-- Error values of the API, mirroring the sentinel errors in
apierrors (src/unnamed/part_001) plus the ad-hoc errors produced by the
handlers and models. List-valued errors keep the offending names. -/
inductive APIError where
  | datasetNotFound
  | editionNotFound
  | versionNotFound
  | instanceNotFound
  | observationsNotFound
  | internalServer
  | indexOutOfRange
  | tooManyWildcards
  | resourcePublished
  | missingQueryParameters (names : List String)
  | incorrectQueryParameters (names : List String)
  | multivaluedQueryParameters (names : List String)
  | atoiError (s : String)
  | editionsLinksDoNotExist
  | versionLinkEmpty
  | badRequestBody
  deriving DecidableEq, Repr

/-- Error message strings, as fixed in apierrors (src/unnamed/part_001). -/
def APIError.message : APIError → String
  | .datasetNotFound => "Dataset not found"
  | .editionNotFound => "Edition not found"
  | .versionNotFound => "Version not found"
  | .instanceNotFound => "Instance not found"
  | .observationsNotFound => "Observation not found"
  | .internalServer => "internal error"
  | .indexOutOfRange => "index out of range"
  | .tooManyWildcards => "only one wildcard (*) is allowed as a value in selected query parameters"
  | .resourcePublished => "unable to update resource, expected resource to have a state of published"
  | .missingQueryParameters _ => "missing query parameters for the following dimensions"
  | .incorrectQueryParameters _ => "incorrect selection of query parameters"
  | .multivaluedQueryParameters _ => "multi-valued query parameters for the following dimensions"
  | .atoiError s => "strconv.Atoi: parsing " ++ s ++ ": invalid syntax"
  | .editionsLinksDoNotExist => "editions links do not exist"
  | .versionLinkEmpty => "invalid arguments to PublishLinks - versionLink empty"
  | .badRequestBody => "failed to parse json body"

/-- HTTP status code that the handlers map each error to
(handleErrorType and the observation error handler): the per-entity
not-found sentinels map to 404, input-validation errors to 400, the
published-resource guard to 403, and everything else to 500. -/
def APIError.status : APIError → Nat
  | .datasetNotFound => 404
  | .editionNotFound => 404
  | .versionNotFound => 404
  | .instanceNotFound => 404
  | .observationsNotFound => 404
  | .tooManyWildcards => 400
  | .missingQueryParameters _ => 400
  | .incorrectQueryParameters _ => 400
  | .multivaluedQueryParameters _ => 400
  | .badRequestBody => 400
  | .resourcePublished => 403
  | _ => 500

/-- Outcome of one HTTP handler call: a success status or an error. -/
inductive Outcome where
  | success (status : Nat)
  | failure (e : APIError)
  deriving DecidableEq, Repr

/-- The HTTP status of an outcome. -/
def Outcome.status : Outcome → Nat
  | .success s => s
  | .failure e => e.status

/-- Character-list version of Go strings.Split with a one-character
separator: splits on every occurrence, keeping empty fields. -/
def splitOnChar (sep : Char) : List Char → List (List Char)
  | [] => [[]]
  | c :: cs =>
    let rest := splitOnChar sep cs
    if c = sep then [] :: rest
    else
      match rest with
      | [] => [[c]]
      | h :: t => (c :: h) :: t

/-- Numeric value of a list of decimal digit characters, most
significant first. -/
def digitsVal (cs : List Char) : Nat :=
  cs.foldl (fun acc c => acc * 10 + (c.toNat - 48)) 0

/-- Model of Go strconv.Atoi restricted to the nonnegative decimal
numerals that appear in this code base: succeeds exactly on a nonempty
all-digit string. -/
def parseAtoi (cs : List Char) : Option Nat :=
  if cs = [] then none
  else if cs.all Char.isDigit then some (digitsVal cs) else none

/-- Modelled from the spec: the body of getDimensionOffsetInHeaderRow is
not under src (only its tests in src/api/observation_test.go are).
Reconstructed from the spec's parsing description - split the first
header cell on the underscore, fail with the index-out-of-range error
when there is no underscore, fail with the numeric-parse error carrying
the suffix when the suffix is not a number - with the returned offset
pinned by the repository's own test assertions (headers starting V4_2
give offset 2 and headers starting v4_0 give offset 0). -/
def getDimensionOffsetInHeaderRow (headerRow : List String) : Except APIError Nat :=
  match headerRow with
  | [] => .error .indexOutOfRange
  | first :: _ =>
    match splitOnChar '_' first.toList with
    | _ :: second :: _ =>
      match parseAtoi second with
      | some n => .ok n
      | none => .error (.atoiError (String.mk second))
    | _ => .error .indexOutOfRange

/-- Dimension descriptor of a version document (models.Dimension,
src/models/dimension.go): only the name is consulted here. -/
structure Dimension where
  name : String
  deriving DecidableEq, Repr

/-- Modelled from the spec: getListOfValidDimensionNames is not under
src (only its test is); the spec fixes it as preserving the declaration
order of the version's dimensions. -/
def getListOfValidDimensionNames (dimensions : List Dimension) : List String :=
  dimensions.map (fun d => d.name)

/-- The whitelist of recognised instance/version states, from the
validStates map in src/models/dimension.go. -/
def validStates : List String :=
  ["created", "completed", "edition-confirmed", "associated", "published"]

/-- Whether a stored state value is in the known state set. -/
def stateIsValid (s : String) : Bool :=
  validStates.contains s

/-- An inbound query string: one entry per parameter name, carrying the
repeated values supplied for that name (Go url.Values). -/
def QueryValues : Type := List (String × List String)

/-- ASCII lower-casing of one character, the fragment of Go
strings.ToLower exercised by this code base (dimension names and query
keys are ASCII). -/
def lowerChar (c : Char) : Char :=
  if 65 ≤ c.toNat ∧ c.toNat ≤ 90 then Char.ofNat (c.toNat + 32) else c

/-- ASCII lower-casing of a string. -/
def lowerString (s : String) : String :=
  String.mk (s.toList.map lowerChar)

/-- Lower-casing of the query keys, as the parameter extraction does
before matching names case-insensitively. -/
def lowerQuery (query : QueryValues) : QueryValues :=
  query.map (fun kv => (lowerString kv.1, kv.2))

/-- Whether a (lower-cased) query carries the given parameter name. -/
def queryHasKey (q : QueryValues) (n : String) : Bool :=
  q.any (fun kv => kv.1 = n)

/-- Modelled from the spec: extractQueryParameters is not under src
(only its tests in src/api/observation_test.go are). Following the
spec's order of checks - every valid name must appear among the
lower-cased query keys (missing names are reported first, listed in
valid-name order), then unknown names are rejected, then names supplied
with other than one value - and returning the dimension-to-value map on
success. -/
def extractQueryParameters (query : QueryValues) (validNames : List String) :
    Except APIError (List (String × String)) :=
  let q := lowerQuery query
  let missing := validNames.filter (fun n => ¬ queryHasKey q n)
  if missing = [] then
    let unknown := (q.filter (fun kv => ¬ validNames.contains kv.1)).map (fun kv => kv.1)
    if unknown = [] then
      let multi := (q.filter (fun kv => kv.2.length ≠ 1)).map (fun kv => kv.1)
      if multi = [] then
        .ok (q.filterMap (fun kv => kv.2.head?.map (fun v => (kv.1, v))))
      else .error (.multivaluedQueryParameters multi)
    else .error (.incorrectQueryParameters unknown)
  else .error (.missingQueryParameters missing)

/-- Number of resolved constraint values equal to the wildcard token. -/
def countWildcards (params : List (String × String)) : Nat :=
  (params.filter (fun kv => kv.2 = "*")).length

/-- Modelled from the spec: the at-most-one-wildcard rule applied to the
resolved constraints, after all dimensions are confirmed present with
single values; two or more wildcards fail with ErrTooManyWildcards. -/
def checkWildcards (params : List (String × String)) : Except APIError Unit :=
  if 2 ≤ countWildcards params then .error .tooManyWildcards else .ok ()

/-- Dataset document (models.Dataset): only the state matters here. -/
structure Dataset where
  state : String
  deriving DecidableEq, Repr

/-- Current/Next pair held for a dataset (models.DatasetUpdate); the
next view plays no role in the observation path and is omitted. -/
structure DatasetUpdate where
  current : Option Dataset
  deriving DecidableEq, Repr

/-- Whether the dataset has a published current view: unprivileged
callers may only see datasets for which this holds. -/
def currentIsPublished (d : DatasetUpdate) : Bool :=
  match d.current with
  | none => false
  | some c => c.state = "published"

/-- Version document as consulted by the observation endpoint
(models.Version): state, the nil-able header row, and the declared
dimensions. -/
structure Version where
  state : String
  headers : Option (List String)
  dimensions : List Dimension
  deriving DecidableEq, Repr

/-- Responses of the storage collaborator for one observation request:
the three lookups the handler makes, in order. -/
structure ObsStoreResponses where
  getDataset : Except APIError DatasetUpdate
  checkEditionExists : Except APIError Unit
  getVersion : Except APIError Version
  deriving Repr

/-- Modelled from the spec: the getObservations handler is not under
src (only its tests in src/api/observation_test.go are). The pipeline
follows the spec - dataset lookup; for unprivileged callers a dataset
without a published current view is reported not-found exactly like an
absent dataset; edition check; version lookup; a version state outside
the known set is a data-integrity failure (InternalServer); unprivileged
callers get not-found for unpublished versions; missing headers,
unparseable header offsets and missing dimensions are internal errors;
then query validation (missing/unknown/multi-valued, then the wildcard
rule); finally the streaming extraction, whose outcome is passed in as
streamResult. -/
def getObservations (authorised : Bool) (store : ObsStoreResponses)
    (query : QueryValues) (streamResult : Except APIError Unit) : Outcome :=
  match store.getDataset with
  | .error e => .failure e
  | .ok dataset =>
    if ¬ authorised ∧ ¬ currentIsPublished dataset then
      .failure .datasetNotFound
    else
      match store.checkEditionExists with
      | .error e => .failure e
      | .ok _ =>
        match store.getVersion with
        | .error e => .failure e
        | .ok version =>
          if ¬ stateIsValid version.state then .failure .internalServer
          else if ¬ authorised ∧ version.state ≠ "published" then .failure .versionNotFound
          else
            match version.headers with
            | none => .failure .internalServer
            | some headers =>
              match getDimensionOffsetInHeaderRow headers with
              | .error _ => .failure .internalServer
              | .ok _ =>
                if version.dimensions = [] then .failure .internalServer
                else
                  match extractQueryParameters query
                      (getListOfValidDimensionNames version.dimensions) with
                  | .error e => .failure e
                  | .ok params =>
                    match checkWildcards params with
                    | .error e => .failure e
                    | .ok _ =>
                      match streamResult with
                      | .error e => .failure e
                      | .ok _ => .success 200

/-- A link to a resource, with its ID and HRef (models.LinkObject). -/
structure LinkObject where
  id : String
  href : String
  deriving DecidableEq, Repr

/-- Links held by one view of an edition document; only the
latest-version link is consulted by the publish path. -/
structure EditionLinks where
  latestVersion : Option LinkObject
  deriving DecidableEq, Repr

/-- One view (current or next) of an edition document. -/
structure EditionView where
  edition : String
  links : Option EditionLinks
  deriving DecidableEq, Repr

/-- Current/Next pair held for an edition (models.EditionUpdate). -/
structure EditionUpdate where
  id : String
  current : Option EditionView
  next : Option EditionView
  deriving DecidableEq, Repr

/-- The latest-version link recorded in the edition's next view. -/
def nextLatestVersion (ed : EditionUpdate) : Option LinkObject :=
  ed.next.bind (fun n => n.links.bind (fun l => l.latestVersion))

/-- The latest-version link recorded in the edition's current view. -/
def currentLatestVersion (ed : EditionUpdate) : Option LinkObject :=
  ed.current.bind (fun c => c.links.bind (fun l => l.latestVersion))

/-- Replacement of the next view's latest-version link. -/
def setNextLatestVersion (ed : EditionUpdate) (link : LinkObject) : EditionUpdate :=
  { ed with
    next := ed.next.map (fun n =>
      { n with links := n.links.map (fun l => { l with latestVersion := some link }) }) }

/-- Modelled from the spec: EditionUpdate.PublishLinks is not under src
(only TestPublishLinks in src/unnamed/part_003 is). Following the spec's
description and the behaviour pinned by the test: fail when the next
view records no latest-version link; parse the current view's recorded
version ID when one exists (defaulting to 0 when none), propagating a
parse failure; reject a nil incoming link; parse the incoming link's ID;
when the current ID is greater than or equal to the incoming one return
success without mutating anything, otherwise set the next view's
latest-version link to the incoming link. State is passed functionally:
the returned edition is the (possibly updated) document. -/
def PublishLinks (ed : EditionUpdate) (versionLink : Option LinkObject) :
    Except APIError EditionUpdate :=
  match nextLatestVersion ed with
  | none => .error .editionsLinksDoNotExist
  | some _ =>
    let currentID : Except APIError Nat :=
      match currentLatestVersion ed with
      | none => .ok 0
      | some cl =>
        match parseAtoi cl.id.toList with
        | some c => .ok c
        | none => .error (.atoiError cl.id)
    match currentID with
    | .error e => .error e
    | .ok c =>
      match versionLink with
      | none => .error .versionLinkEmpty
      | some link =>
        match parseAtoi link.id.toList with
        | none => .error (.atoiError link.id)
        | some n =>
          if n ≤ c then .ok ed
          else .ok (setNextLatestVersion ed link)

/-- Instance document as consulted by the instance handlers
(models.Instance): its state and the fields driving the
edition-confirmation path. -/
structure InstanceDoc where
  state : String
  edition : String
  datasetID : String
  deriving DecidableEq, Repr

/-- The storage calls an instance handler can make, recorded in the
order they are issued so call-count assertions can be stated. -/
inductive StoreCall where
  | getInstance
  | getEdition
  | upsertEdition
  | getNextVersion
  | addVersionDetails
  | updateInstance
  deriving DecidableEq, Repr

/-- Responses of the storage collaborator for one instance request. -/
structure InstanceStoreResponses where
  getInstance : Except APIError InstanceDoc
  getEdition : Except APIError EditionUpdate
  upsertEdition : Except APIError Unit
  getNextVersion : Except APIError Nat
  addVersionDetails : Except APIError Unit
  updateInstance : Except APIError Unit
  deriving Repr

/-- Body of a PUT /instances request: the requested state and edition,
empty strings standing for absent fields as in the Go struct. -/
structure InstanceUpdateBody where
  state : String
  edition : String
  deriving DecidableEq, Repr

/-- The edition-confirmation sub-steps after the edition lookup: upsert
the edition, allocate the next version number, patch the version details
onto the instance, and only then persist the instance update. Any
storage failure in the first three is an InternalServer outcome; the
calls already made stay in the log. -/
def confirmEditionTail (store : InstanceStoreResponses) : Outcome × List StoreCall :=
  match store.upsertEdition with
  | .error _ => (.failure .internalServer, [.upsertEdition])
  | .ok _ =>
    match store.getNextVersion with
    | .error _ => (.failure .internalServer, [.upsertEdition, .getNextVersion])
    | .ok _ =>
      match store.addVersionDetails with
      | .error _ =>
        (.failure .internalServer, [.upsertEdition, .getNextVersion, .addVersionDetails])
      | .ok _ =>
        match store.updateInstance with
        | .error e =>
          (.failure e,
            [.upsertEdition, .getNextVersion, .addVersionDetails, .updateInstance])
        | .ok _ =>
          (.success 200,
            [.upsertEdition, .getNextVersion, .addVersionDetails, .updateInstance])

/-- Modelled from the spec: the instance Update handler is not under src
(only its tests in src/unnamed/part_002 are). Following the spec and the
tests: fetch the current instance (absent instance is not-found, storage
fault internal); a stored state outside the known set is an
InternalServer outcome; a published instance rejects every mutation with
Forbidden before any update call; a move to edition-confirmed with an
edition named runs the edition lookup (an absent edition is not an
error: first edition), then the confirmEditionTail sub-steps; otherwise
the instance update is persisted directly. -/
def updateInstanceHandler (store : InstanceStoreResponses) (body : InstanceUpdateBody) :
    Outcome × List StoreCall :=
  match store.getInstance with
  | .error e => (.failure e, [.getInstance])
  | .ok current =>
    if ¬ stateIsValid current.state then (.failure .internalServer, [.getInstance])
    else if current.state = "published" then (.failure .resourcePublished, [.getInstance])
    else if body.state = "edition-confirmed" ∧ body.edition ≠ "" then
      match store.getEdition with
      | .error .editionNotFound =>
        let (out, calls) := confirmEditionTail store
        (out, .getInstance :: .getEdition :: calls)
      | .error _ => (.failure .internalServer, [.getInstance, .getEdition])
      | .ok _ =>
        let (out, calls) := confirmEditionTail store
        (out, .getInstance :: .getEdition :: calls)
    else
      match store.updateInstance with
      | .error e => (.failure e, [.getInstance, .updateInstance])
      | .ok _ => (.success 200, [.getInstance, .updateInstance])

/-- Modelled from the spec: the instance UpdateDimension handler is not
under src (only its tests in src/unnamed/part_002 are). Following the
spec and the tests: fetch the instance; a stored state outside the known
set is InternalServer; a published instance is Forbidden before any
update call; a malformed body is a bad request; otherwise the dimension
change is persisted through UpdateInstance. -/
def updateDimensionHandler (store : InstanceStoreResponses) (bodyValid : Bool) :
    Outcome × List StoreCall :=
  match store.getInstance with
  | .error e => (.failure e, [.getInstance])
  | .ok current =>
    if ¬ stateIsValid current.state then (.failure .internalServer, [.getInstance])
    else if current.state = "published" then (.failure .resourcePublished, [.getInstance])
    else if ¬ bodyValid then (.failure .badRequestBody, [.getInstance])
    else
      match store.updateInstance with
      | .error e => (.failure e, [.getInstance, .updateInstance])
      | .ok _ => (.success 200, [.getInstance, .updateInstance])

/-- Modelled from the spec: the instance Get handler is not under src
(only its tests in src/unnamed/part_002 are). Fetch the instance and
treat a stored state outside the known set as an InternalServer
outcome. -/
def getInstanceHandler (store : InstanceStoreResponses) : Outcome :=
  match store.getInstance with
  | .error e => .failure e
  | .ok current =>
    if ¬ stateIsValid current.state then .failure .internalServer
    else .success 200

/-- Version document as stored in the versions collection, restricted
to the fields the mongo queries consult. -/
structure StoredVersion where
  datasetID : String
  edition : String
  version : Nat
  state : String
  deriving DecidableEq, Repr

/-- Errors surfaced by the mongo driver: the not-found sentinel or any
other storage fault. -/
inductive MongoErr where
  | notFound
  | other (msg : String)
  deriving DecidableEq, Repr

/-- Largest element of a list of naturals, none for the empty list. -/
def maxNat? : List Nat → Option Nat
  | [] => none
  | x :: xs =>
    match maxNat? xs with
    | none => some x
    | some m => some (max x m)

/-- Version numbers of the stored versions matching a dataset/edition
pair: the documents selected by the GetNextVersion query. -/
def matchingVersionNumbers (docs : List StoredVersion) (d e : String) : List Nat :=
  (docs.filter (fun v => v.datasetID = d ∧ v.edition = e)).map (fun v => v.version)

/-- Semantics of the driver call made by GetNextVersion
(Find(dataset,edition).Sort("-version").One): the largest matching
version number, or the not-found sentinel when no document matches. -/
def findLatestVersion (docs : List StoredVersion) (d e : String) : Except MongoErr Nat :=
  match maxNat? (matchingVersionNumbers docs d e) with
  | none => .error .notFound
  | some m => .ok m

/-- GetNextVersion from src/mongo/mongo.go lines 169-186, over the
result of the driver query: the not-found sentinel maps to version 1,
any other driver error is propagated, and a found document yields its
version number plus one. -/
def GetNextVersion (queryResult : Except MongoErr Nat) : Except MongoErr Nat :=
  match queryResult with
  | .error .notFound => .ok 1
  | .error e => .error e
  | .ok v => .ok (v + 1)

/-- Selector built by the version lookup: the triple of identifiers
plus an optional state constraint. -/
structure VersionSelector where
  datasetID : String
  edition : String
  version : Nat
  state : Option String
  deriving DecidableEq, Repr

/-- buildVersionQuery from src/mongo/mongo.go lines 253-271: the state
field is included in the selector exactly when the requested state is
the string published. -/
def buildVersionQuery (id editionID state : String) (versionID : Nat) : VersionSelector :=
  if state ≠ "published" then
    { datasetID := id, edition := editionID, version := versionID, state := none }
  else
    { datasetID := id, edition := editionID, version := versionID, state := some state }

/-- Whether a stored version document satisfies a selector: all present
selector fields must match the document. -/
def selectorMatches (sel : VersionSelector) (doc : StoredVersion) : Bool :=
  doc.datasetID = sel.datasetID && doc.edition = sel.edition && doc.version = sel.version &&
    (match sel.state with
     | none => true
     | some s => doc.state = s)

/-- GetVersion from src/mongo/mongo.go lines 232-251, with the driver
Find-One call interpreted over an explicit list of stored documents:
parse the version identifier (propagating the Atoi failure), build the
selector, and return the first matching document or the version
not-found sentinel. -/
def GetVersion (id editionID versionID state : String) (docs : List StoredVersion) :
    Except APIError StoredVersion :=
  match parseAtoi versionID.toList with
  | none => .error (.atoiError versionID)
  | some vnum =>
    match docs.find? (selectorMatches (buildVersionQuery id editionID state vnum)) with
    | none => .error .versionNotFound
    | some doc => .ok doc

theorem splitOnChar_no_sep (sep : Char) (l : List Char) (h : ∀ x ∈ l, x ≠ sep) :
    splitOnChar sep l = [l] := by
  induction l with
  | nil => rfl
  | cons c cs ih =>
    have hc : c ≠ sep := h c (List.mem_cons_self c cs)
    have hrest : splitOnChar sep cs = [cs] := ih (fun x hx => h x (List.mem_cons_of_mem c hx))
    simp [splitOnChar, hc, hrest]

theorem parseAtoi_digits (ds : List Char) (hne : ds ≠ []) (hdig : ds.all Char.isDigit = true) :
    parseAtoi ds = some (digitsVal ds) := by
  simp [parseAtoi, hne, hdig]

/-- Claim C1 (amended): for every header list whose first cell has the
form v4_N with N a decimal numeral (matched case-insensitively: the
resolver ignores the prefix before the underscore), the dimension-offset
resolver succeeds and returns the count N itself - not 2 times N - so a
header starting v4_2 yields 2 and one starting v4_0 yields 0. -/
theorem claim_C1_dimension_offset (c0 : Char) (ds : List Char) (rest : List String)
    (hc : c0 = 'v' ∨ c0 = 'V') (hne : ds ≠ []) (hdig : ds.all Char.isDigit = true) :
    getDimensionOffsetInHeaderRow (String.mk (c0 :: '4' :: '_' :: ds) :: rest) =
      .ok (digitsVal ds) := by
  have hnosep : ∀ x ∈ ds, x ≠ '_' := by
    intro x hx he
    have hd := List.all_eq_true.mp hdig x hx
    subst he
    exact absurd hd (by decide)
  have h1 : splitOnChar '_' ds = [ds] := splitOnChar_no_sep '_' ds hnosep
  have hparse : parseAtoi ds = some (digitsVal ds) := parseAtoi_digits ds hne hdig
  have hsplit : splitOnChar '_' (c0 :: '4' :: '_' :: ds) = [[c0, '4'], ds] := by
    rcases hc with h | h <;> subst h <;>
      · show _ :: splitOnChar '_' ds = _
        rw [h1]
  have hred : getDimensionOffsetInHeaderRow (String.mk (c0 :: '4' :: '_' :: ds) :: rest) =
      (match splitOnChar '_' (c0 :: '4' :: '_' :: ds) with
       | _ :: second :: _ =>
         match parseAtoi second with
         | some n => Except.ok n
         | none => Except.error (APIError.atoiError (String.mk second))
       | _ => Except.error APIError.indexOutOfRange) := rfl
  rw [hred, hsplit]
  show (match parseAtoi ds with
        | some n => Except.ok n
        | none => Except.error (APIError.atoiError (String.mk ds))) = Except.ok (digitsVal ds)
  rw [hparse]

/-- Counterexample to claim C1 as stated: on a header starting v4_2 the
resolver does not return 4 (it returns 2). -/
theorem claim_C1_counterexample :
    ¬ (getDimensionOffsetInHeaderRow ["v4_2", "data_marking", "confidence_interval"] =
      Except.ok 4) := by
  decide

theorem claim_C1_witness :
    getDimensionOffsetInHeaderRow ["v4_2", "data_marking"] = Except.ok 2 ∧
    getDimensionOffsetInHeaderRow ["v4_0", "time_codelist"] = Except.ok 0 := by
  constructor
  · exact claim_C1_dimension_offset 'v' ['2'] ["data_marking"] (Or.inl rfl)
      (by decide) (by decide)
  · exact claim_C1_dimension_offset 'v' ['0'] ["time_codelist"] (Or.inl rfl)
      (by decide) (by decide)

/-- Claim C2: for an edition whose current view records a latest-version
link with numeric ID c and whose next view records a latest-version
link, PublishLinks with an incoming link of numeric ID at most c
succeeds and mutates nothing (the edition, hence both latest-version
links, is returned unchanged); only an incoming ID strictly greater
than c updates the next view's latest-version link, and even then the
current view is untouched. -/
theorem claim_C2_publish_links_no_regress (ed : EditionUpdate) (nl cl link : LinkObject)
    (c n : Nat)
    (hnext : nextLatestVersion ed = some nl)
    (hcur : currentLatestVersion ed = some cl)
    (hc : parseAtoi cl.id.toList = some c)
    (hn : parseAtoi link.id.toList = some n) :
    (n ≤ c → PublishLinks ed (some link) = .ok ed) ∧
    (c < n →
      PublishLinks ed (some link) = .ok (setNextLatestVersion ed link) ∧
      nextLatestVersion (setNextLatestVersion ed link) = some link ∧
      currentLatestVersion (setNextLatestVersion ed link) = currentLatestVersion ed) := by
  have hpub : PublishLinks ed (some link) =
      if n ≤ c then .ok ed else .ok (setNextLatestVersion ed link) := by
    simp only [PublishLinks, hnext, hcur, hc, hn]
  constructor
  · intro hle
    rw [hpub, if_pos hle]
  · intro hlt
    obtain ⟨nv, hnv, hrest⟩ := Option.bind_eq_some.mp hnext
    obtain ⟨lks, hlks, _⟩ := Option.bind_eq_some.mp hrest
    refine ⟨?_, ?_, ?_⟩
    · rw [hpub, if_neg (by omega)]
    · simp [setNextLatestVersion, nextLatestVersion, hnv, hlks]
    · simp [setNextLatestVersion, currentLatestVersion]

theorem claim_C2_witness :
    PublishLinks
      (EditionUpdate.mk "test" (some ⟨"time-series", some ⟨some ⟨"2", "c"⟩⟩⟩)
        (some ⟨"time-series", some ⟨some ⟨"2", "n"⟩⟩⟩))
      (some ⟨"1", "l1"⟩) =
    .ok
      (EditionUpdate.mk "test" (some ⟨"time-series", some ⟨some ⟨"2", "c"⟩⟩⟩)
        (some ⟨"time-series", some ⟨some ⟨"2", "n"⟩⟩⟩)) := by
  exact (claim_C2_publish_links_no_regress _ ⟨"2", "n"⟩ ⟨"2", "c"⟩ ⟨"1", "l1"⟩ 2 1
    (by decide) (by decide) (by decide) (by decide)).1 (by decide)

theorem stateIsValid_published : stateIsValid "published" = true := by decide

/-- Claim C3: on an instance Update that moves the instance to
edition-confirmed, when the edition lookup (an absent edition counts as
success), the edition upsert and the next-version allocation all
succeed but the instance patch (AddVersionDetailsToInstance) fails, the
whole Update is an InternalServer (500) outcome and UpdateInstance is
never called, even though the edition upsert has already been
performed. -/
theorem claim_C3_confirm_edition_patch_failure (store : InstanceStoreResponses)
    (body : InstanceUpdateBody) (inst : InstanceDoc) (e : APIError) (n : Nat)
    (hget : store.getInstance = .ok inst)
    (hstate : stateIsValid inst.state = true) (hnp : inst.state ≠ "published")
    (hbody : body.state = "edition-confirmed") (hed : body.edition ≠ "")
    (hged : store.getEdition = .error .editionNotFound ∨ ∃ ed, store.getEdition = .ok ed)
    (hup : store.upsertEdition = .ok ()) (hnv : store.getNextVersion = .ok n)
    (havd : store.addVersionDetails = .error e) :
    (updateInstanceHandler store body).1 = .failure .internalServer ∧
    ((updateInstanceHandler store body).1).status = 500 ∧
    StoreCall.updateInstance ∉ (updateInstanceHandler store body).2 ∧
    StoreCall.upsertEdition ∈ (updateInstanceHandler store body).2 := by
  have htail : confirmEditionTail store =
      (.failure .internalServer, [.upsertEdition, .getNextVersion, .addVersionDetails]) := by
    simp only [confirmEditionTail, hup, hnv, havd]
  have hcalls : updateInstanceHandler store body =
      (.failure .internalServer,
        [.getInstance, .getEdition, .upsertEdition, .getNextVersion, .addVersionDetails]) := by
    rcases hged with hged | ⟨ed, hged⟩ <;>
      simp only [updateInstanceHandler, hget, hstate, hnp, hbody, hed, htail, hged] <;>
      simp [hed]
  rw [hcalls]
  refine ⟨rfl, rfl, ?_, ?_⟩ <;> decide

/-- Claim C4: a mutating instance operation (state update or dimension
update) against an instance stored as published is Forbidden (403), and
the only storage call made is the initial read: neither UpdateInstance
nor AddVersionDetailsToInstance is ever invoked, so the stored instance
is unchanged. -/
theorem claim_C4_published_is_forbidden (store : InstanceStoreResponses)
    (body : InstanceUpdateBody) (bodyValid : Bool) (inst : InstanceDoc)
    (hget : store.getInstance = .ok inst) (hpub : inst.state = "published") :
    updateInstanceHandler store body = (.failure .resourcePublished, [.getInstance]) ∧
    updateDimensionHandler store bodyValid = (.failure .resourcePublished, [.getInstance]) ∧
    (Outcome.failure .resourcePublished).status = 403 := by
  refine ⟨?_, ?_, rfl⟩ <;>
    simp [updateInstanceHandler, updateDimensionHandler, hget, hpub, stateIsValid_published]

theorem claim_C4_witness :
    updateInstanceHandler
      ⟨.ok ⟨"published", "2017", "4567"⟩, .error .editionNotFound, .ok (), .ok 1, .ok (), .ok ()⟩
      ⟨"completed", ""⟩ = (.failure .resourcePublished, [.getInstance]) ∧
    updateDimensionHandler
      ⟨.ok ⟨"published", "2017", "4567"⟩, .error .editionNotFound, .ok (), .ok 1, .ok (), .ok ()⟩
      true = (.failure .resourcePublished, [.getInstance]) := by
  have h := claim_C4_published_is_forbidden
    ⟨.ok ⟨"published", "2017", "4567"⟩, .error .editionNotFound, .ok (), .ok 1, .ok (), .ok ()⟩
    ⟨"completed", ""⟩ true ⟨"published", "2017", "4567"⟩ rfl rfl
  exact ⟨h.1, h.2.1⟩

theorem claim_C3_witness :
    (updateInstanceHandler
      ⟨.ok ⟨"completed", "2017", "4567"⟩, .error .editionNotFound, .ok (), .ok 1,
        .error .internalServer, .ok ()⟩
      ⟨"edition-confirmed", "2017"⟩).1 = .failure .internalServer ∧
    StoreCall.updateInstance ∉
      (updateInstanceHandler
        ⟨.ok ⟨"completed", "2017", "4567"⟩, .error .editionNotFound, .ok (), .ok 1,
          .error .internalServer, .ok ()⟩
        ⟨"edition-confirmed", "2017"⟩).2 := by
  have h := claim_C3_confirm_edition_patch_failure
    ⟨.ok ⟨"completed", "2017", "4567"⟩, .error .editionNotFound, .ok (), .ok 1,
      .error .internalServer, .ok ()⟩
    ⟨"edition-confirmed", "2017"⟩ ⟨"completed", "2017", "4567"⟩ .internalServer 1
    rfl (by decide) (by decide) rfl (by decide) (Or.inl rfl) rfl rfl rfl
  exact ⟨h.1, h.2.2.1⟩

/-- Claim C5: for an unprivileged caller, an observation request against
a dataset that exists but has no published current view yields the same
dataset-not-found outcome (404, Dataset not found) as a dataset that
does not exist at all, and is never Forbidden. -/
theorem claim_C5_public_unpublished_is_not_found
    (store1 store2 : ObsStoreResponses) (q1 q2 : QueryValues)
    (s1 s2 : Except APIError Unit) (du : DatasetUpdate)
    (h1 : store1.getDataset = .ok du) (hnc : currentIsPublished du = false)
    (h2 : store2.getDataset = .error .datasetNotFound) :
    getObservations false store1 q1 s1 = .failure .datasetNotFound ∧
    getObservations false store2 q2 s2 = .failure .datasetNotFound ∧
    (getObservations false store1 q1 s1).status = 404 ∧
    APIError.datasetNotFound.message = "Dataset not found" ∧
    (getObservations false store1 q1 s1).status ≠ 403 := by
  have hob1 : getObservations false store1 q1 s1 = .failure .datasetNotFound := by
    simp [getObservations, h1, hnc]
  have hob2 : getObservations false store2 q2 s2 = .failure .datasetNotFound := by
    simp [getObservations, h2]
  rw [hob1, hob2]
  refine ⟨rfl, rfl, rfl, rfl, by decide⟩

theorem claim_C5_witness :
    getObservations false ⟨.ok ⟨none⟩, .ok (), .ok ⟨"published", none, []⟩⟩ [] (.ok ()) =
      .failure .datasetNotFound ∧
    getObservations false ⟨.error .datasetNotFound, .ok (), .ok ⟨"published", none, []⟩⟩ []
      (.ok ()) = .failure .datasetNotFound := by
  have h := claim_C5_public_unpublished_is_not_found
    ⟨.ok ⟨none⟩, .ok (), .ok ⟨"published", none, []⟩⟩
    ⟨.error .datasetNotFound, .ok (), .ok ⟨"published", none, []⟩⟩ [] [] (.ok ()) (.ok ())
    ⟨none⟩ rfl rfl rfl
  exact ⟨h.1, h.2.1⟩

/-- Claim C6: a stored state value outside the known state set makes
every state-consulting operation fail with InternalServer (500): reading
the instance, updating the instance, updating a dimension, and serving
observations all fail that way, with no default path. -/
theorem claim_C6_unknown_state_is_internal_error (s : String)
    (hs : stateIsValid s = false)
    (istore : InstanceStoreResponses) (inst : InstanceDoc)
    (hgi : istore.getInstance = .ok inst) (hst : inst.state = s)
    (body : InstanceUpdateBody) (bodyValid : Bool)
    (auth : Bool) (ostore : ObsStoreResponses) (du : DatasetUpdate) (v : Version)
    (hd : ostore.getDataset = .ok du) (hdp : currentIsPublished du = true)
    (hce : ostore.checkEditionExists = .ok ()) (hv : ostore.getVersion = .ok v)
    (hvs : v.state = s) (q : QueryValues) (sr : Except APIError Unit) :
    getInstanceHandler istore = .failure .internalServer ∧
    (updateInstanceHandler istore body).1 = .failure .internalServer ∧
    (updateDimensionHandler istore bodyValid).1 = .failure .internalServer ∧
    getObservations auth ostore q sr = .failure .internalServer ∧
    APIError.internalServer.status = 500 := by
  refine ⟨?_, ?_, ?_, ?_, rfl⟩
  · simp [getInstanceHandler, hgi, hst, hs]
  · simp [updateInstanceHandler, hgi, hst, hs]
  · simp [updateDimensionHandler, hgi, hst, hs]
  · simp [getObservations, hd, hdp, hce, hv, hvs, hs]

theorem claim_C6_witness :
    getInstanceHandler
      ⟨.ok ⟨"gobbly gook", "2017", "4567"⟩, .error .editionNotFound, .ok (), .ok 1, .ok (),
        .ok ()⟩ = .failure .internalServer ∧
    getObservations true
      ⟨.ok ⟨some ⟨"published"⟩⟩, .ok (), .ok ⟨"gobbly-gook", none, []⟩⟩ [] (.ok ()) =
      .failure .internalServer := by
  have h1 := claim_C6_unknown_state_is_internal_error "gobbly gook" (by decide)
    ⟨.ok ⟨"gobbly gook", "2017", "4567"⟩, .error .editionNotFound, .ok (), .ok 1, .ok (), .ok ()⟩
    ⟨"gobbly gook", "2017", "4567"⟩ rfl rfl ⟨"created", ""⟩ true true
    ⟨.ok ⟨some ⟨"published"⟩⟩, .ok (), .ok ⟨"gobbly gook", none, []⟩⟩
    ⟨some ⟨"published"⟩⟩ ⟨"gobbly gook", none, []⟩ rfl rfl rfl rfl rfl [] (.ok ())
  have h2 := claim_C6_unknown_state_is_internal_error "gobbly-gook" (by decide)
    ⟨.ok ⟨"gobbly-gook", "2017", "4567"⟩, .error .editionNotFound, .ok (), .ok 1, .ok (), .ok ()⟩
    ⟨"gobbly-gook", "2017", "4567"⟩ rfl rfl ⟨"created", ""⟩ true true
    ⟨.ok ⟨some ⟨"published"⟩⟩, .ok (), .ok ⟨"gobbly-gook", none, []⟩⟩
    ⟨some ⟨"published"⟩⟩ ⟨"gobbly-gook", none, []⟩ rfl rfl rfl rfl rfl [] (.ok ())
  exact ⟨h1.1, h2.2.2.2.1⟩

/-- Claim C7: an observation query whose constraints resolve with two or
more values equal to the wildcard token (all dimensions present with
single values, however many non-wildcard dimensions there are) is
rejected as a BadRequest (400) with exactly the one-wildcard message. -/
theorem claim_C7_too_many_wildcards (auth : Bool) (store : ObsStoreResponses)
    (du : DatasetUpdate) (v : Version) (headers : List String) (k : Nat)
    (q : QueryValues) (params : List (String × String)) (sr : Except APIError Unit)
    (hd : store.getDataset = .ok du) (hdp : currentIsPublished du = true)
    (hce : store.checkEditionExists = .ok ()) (hv : store.getVersion = .ok v)
    (hvs : v.state = "published") (hh : v.headers = some headers)
    (hoff : getDimensionOffsetInHeaderRow headers = .ok k)
    (hdim : v.dimensions ≠ [])
    (hex : extractQueryParameters q (getListOfValidDimensionNames v.dimensions) = .ok params)
    (hw : 2 ≤ countWildcards params) :
    getObservations auth store q sr = .failure .tooManyWildcards ∧
    APIError.tooManyWildcards.status = 400 ∧
    APIError.tooManyWildcards.message =
      "only one wildcard (*) is allowed as a value in selected query parameters" := by
  refine ⟨?_, rfl, rfl⟩
  have hcw : checkWildcards params = .error .tooManyWildcards := by
    simp [checkWildcards, hw]
  simp [getObservations, hd, hdp, hce, hv, hvs, hh, hoff, hdim, hex, hcw,
    stateIsValid_published]

theorem claim_C7_witness :
    getObservations true
      ⟨.ok ⟨some ⟨"published"⟩⟩, .ok (),
        .ok ⟨"published",
          some ["v4_0", "time_code", "time", "aggregate_code", "aggregate",
            "geography_code", "geography"],
          [⟨"aggregate"⟩, ⟨"geography"⟩, ⟨"time"⟩]⟩⟩
      [("time", ["*"]), ("aggregate", ["*"]), ("geography", ["K02000001"])] (.ok ()) =
      .failure .tooManyWildcards := by
  have h := claim_C7_too_many_wildcards true
    ⟨.ok ⟨some ⟨"published"⟩⟩, .ok (),
      .ok ⟨"published",
        some ["v4_0", "time_code", "time", "aggregate_code", "aggregate",
          "geography_code", "geography"],
        [⟨"aggregate"⟩, ⟨"geography"⟩, ⟨"time"⟩]⟩⟩
    ⟨some ⟨"published"⟩⟩
    ⟨"published",
      some ["v4_0", "time_code", "time", "aggregate_code", "aggregate",
        "geography_code", "geography"],
      [⟨"aggregate"⟩, ⟨"geography"⟩, ⟨"time"⟩]⟩
    ["v4_0", "time_code", "time", "aggregate_code", "aggregate",
      "geography_code", "geography"] 0
    [("time", ["*"]), ("aggregate", ["*"]), ("geography", ["K02000001"])]
    [("time", "*"), ("aggregate", "*"), ("geography", "K02000001")] (.ok ())
    rfl rfl rfl rfl rfl rfl (by decide) (by decide) (by decide) (by decide)
  exact h.1

/-- Claim C8: a query that omits at least one valid dimension name is
rejected with the missing-parameters BadRequest whose list names exactly
the omitted dimensions, in the order of the valid-name list (the list is
a sublist of the valid names and its membership is exactly
omission). -/
theorem claim_C8_missing_parameters (query : QueryValues) (validNames : List String)
    (n0 : String) (hmem : n0 ∈ validNames)
    (habs : queryHasKey (lowerQuery query) n0 = false) :
    ∃ ms, extractQueryParameters query validNames = .error (.missingQueryParameters ms) ∧
      ms ≠ [] ∧ List.Sublist ms validNames ∧
      (∀ n, n ∈ ms ↔ n ∈ validNames ∧ queryHasKey (lowerQuery query) n = false) := by
  refine ⟨validNames.filter (fun n => ¬ queryHasKey (lowerQuery query) n), ?_, ?_, ?_, ?_⟩
  case refine_2 =>
    intro h
    have hmemf : n0 ∈ validNames.filter (fun n => ¬ queryHasKey (lowerQuery query) n) :=
      List.mem_filter.mpr ⟨hmem, by simp [habs]⟩
    rw [h] at hmemf
    exact absurd hmemf (List.not_mem_nil n0)
  case refine_1 =>
    have hne : validNames.filter (fun n => ¬ queryHasKey (lowerQuery query) n) ≠ [] := by
      intro h
      have hmemf : n0 ∈ validNames.filter (fun n => ¬ queryHasKey (lowerQuery query) n) :=
        List.mem_filter.mpr ⟨hmem, by simp [habs]⟩
      rw [h] at hmemf
      exact absurd hmemf (List.not_mem_nil n0)
    simp only [extractQueryParameters]
    rw [if_neg hne]
  case refine_3 => exact List.filter_sublist validNames
  case refine_4 =>
    intro n
    simp [List.mem_filter]

theorem claim_C8_witness :
    ∃ ms, extractQueryParameters [("time", ["JAN08"]), ("geography", ["wales"])]
        ["time", "aggregate", "geography"] = .error (.missingQueryParameters ms) ∧
      ms ≠ [] ∧ List.Sublist ms ["time", "aggregate", "geography"] ∧
      (∀ n, n ∈ ms ↔ n ∈ ["time", "aggregate", "geography"] ∧
        queryHasKey (lowerQuery [("time", ["JAN08"]), ("geography", ["wales"])]) n = false) :=
  claim_C8_missing_parameters [("time", ["JAN08"]), ("geography", ["wales"])]
    ["time", "aggregate", "geography"] "aggregate" (by decide) (by decide)

theorem maxNat?_eq_none_iff (l : List Nat) : maxNat? l = none ↔ l = [] := by
  cases l with
  | nil => simp [maxNat?]
  | cons x xs =>
    constructor
    · intro h
      rw [maxNat?] at h
      cases hx : maxNat? xs <;> rw [hx] at h <;> simp at h
    · intro h
      exact absurd h (List.cons_ne_nil x xs)

theorem maxNat?_spec (l : List Nat) (m : Nat) (h : maxNat? l = some m) :
    m ∈ l ∧ ∀ x ∈ l, x ≤ m := by
  induction l generalizing m with
  | nil => simp [maxNat?] at h
  | cons y ys ih =>
    rw [maxNat?] at h
    cases hy : maxNat? ys with
    | none =>
      rw [hy] at h
      have hnil : ys = [] := (maxNat?_eq_none_iff ys).mp hy
      subst hnil
      simp at h
      subst h
      simp
    | some m2 =>
      rw [hy] at h
      simp at h
      obtain ⟨hmem2, hub2⟩ := ih m2 hy
      subst h
      constructor
      · rcases Nat.le_total y m2 with hle | hle
        · rw [max_eq_right hle]
          exact List.mem_cons_of_mem y hmem2
        · rw [max_eq_left hle]
          exact List.mem_cons_self y ys
      · intro x hx
        rcases List.mem_cons.mp hx with hx | hx
        · subst hx
          exact le_max_left x m2
        · exact le_trans (hub2 x hx) (le_max_right y m2)

theorem maxNat?_eq_some_of (l : List Nat) (m : Nat) (hm : m ∈ l)
    (hub : ∀ x ∈ l, x ≤ m) : maxNat? l = some m := by
  cases hmax : maxNat? l with
  | none =>
    rw [maxNat?_eq_none_iff] at hmax
    subst hmax
    exact absurd hm (List.not_mem_nil m)
  | some m2 =>
    obtain ⟨hmem2, hub2⟩ := maxNat?_spec l m2 hmax
    rw [le_antisymm (hub m2 hmem2) (hub2 m hm)]

/-- Claim C9: GetNextVersion returns one plus the maximum existing
version number of the dataset/edition pair, returns 1 without error when
no versions exist, and propagates any driver error other than
not-found. -/
theorem claim_C9_next_version (docs : List StoredVersion) (d e : String) (m : Nat)
    (hmem : m ∈ matchingVersionNumbers docs d e)
    (hub : ∀ x ∈ matchingVersionNumbers docs d e, x ≤ m) :
    GetNextVersion (findLatestVersion docs d e) = .ok (m + 1) ∧
    (∀ docs2 : List StoredVersion, ∀ d2 e2 : String,
      matchingVersionNumbers docs2 d2 e2 = [] →
        GetNextVersion (findLatestVersion docs2 d2 e2) = .ok 1) ∧
    (∀ msg : String, GetNextVersion (.error (.other msg)) = .error (.other msg)) := by
  refine ⟨?_, ?_, fun _ => rfl⟩
  · rw [findLatestVersion, maxNat?_eq_some_of _ m hmem hub]
    rfl
  · intro docs2 d2 e2 h
    rw [findLatestVersion, h]
    rfl

theorem claim_C9_witness :
    GetNextVersion (findLatestVersion
      [⟨"cpih012", "2017", 3, "published"⟩, ⟨"cpih012", "2017", 7, "created"⟩,
        ⟨"other", "2017", 9, "created"⟩] "cpih012" "2017") = .ok 8 :=
  (claim_C9_next_version
    [⟨"cpih012", "2017", 3, "published"⟩, ⟨"cpih012", "2017", 7, "created"⟩,
      ⟨"other", "2017", 9, "created"⟩] "cpih012" "2017" 7 (by decide) (by decide)).1

/-- Claim C10: the version lookup applies the requested state as a
constraint only when it equals published: for every other requested
state (the empty string included) the selector omits the state field, so
a stored version in any state matching the dataset/edition/number triple
is matched and returned; with state published the selector carries the
state field and only a published document matches. -/
theorem claim_C10_version_query_state (id editionID state versionID : String)
    (vnum : Nat) (doc : StoredVersion)
    (hp : state ≠ "published")
    (hv : parseAtoi versionID.toList = some vnum)
    (hd : doc.datasetID = id) (he : doc.edition = editionID) (hn : doc.version = vnum) :
    (buildVersionQuery id editionID state vnum).state = none ∧
    selectorMatches (buildVersionQuery id editionID state vnum) doc = true ∧
    GetVersion id editionID versionID state [doc] = .ok doc ∧
    (buildVersionQuery id editionID "published" vnum).state = some "published" ∧
    (selectorMatches (buildVersionQuery id editionID "published" vnum) doc = true ↔
      doc.state = "published") := by
  have hbq : buildVersionQuery id editionID state vnum =
      { datasetID := id, edition := editionID, version := vnum, state := none } := by
    rw [buildVersionQuery, if_pos hp]
  have hmatch : selectorMatches (buildVersionQuery id editionID state vnum) doc = true := by
    rw [hbq]
    simp [selectorMatches, hd, he, hn]
  refine ⟨?_, hmatch, ?_, ?_, ?_⟩
  · rw [hbq]
  · rw [GetVersion, hv]
    simp [List.find?, hmatch]
  · rw [buildVersionQuery, if_neg (by simp)]
  · rw [buildVersionQuery, if_neg (by simp)]
    simp [selectorMatches, hd, he, hn]

theorem claim_C10_witness :
    GetVersion "cpih012" "2017" "3" "created"
      [⟨"cpih012", "2017", 3, "associated"⟩] = .ok ⟨"cpih012", "2017", 3, "associated"⟩ ∧
    (buildVersionQuery "cpih012" "2017" "" 3).state = none :=
  have h := claim_C10_version_query_state "cpih012" "2017" "created" "3" 3
    ⟨"cpih012", "2017", 3, "associated"⟩ (by decide) (by decide) rfl rfl rfl
  have h2 := claim_C10_version_query_state "cpih012" "2017" "" "3" 3
    ⟨"cpih012", "2017", 3, "associated"⟩ (by decide) (by decide) rfl rfl rfl
  ⟨h.2.2.1, h2.1⟩

end DpDatasetApi
